import Mathlib

/-!
Shallow embedding of `src/Mod/Draft/draftguitools/gui_snaps.py`:
the Draft snap GUI commands and the keyboard-driven numeric-entry
handler `keyPressEvent`.

The handler's host collaborators (the Qt event, the snap tracker from
`gui_trackers.py`, the working plane) are modelled explicitly:

* Qt key codes are the standard Qt integer constants;
* the tracker fields the handler reads and writes (`holdPoint`,
  `inputDistance`, `locked_dir_vector`) form a `Tracker` record;
* calls into tracker methods are recorded in a trace (`TrackerCall`);
* the two geometric externals (the working plane's local rotation and
  `get_orthogonal_direction`) are abstract function parameters.
-/

/-- A 3D vector, standing in for `FreeCAD.Vector`. -/
structure Vec where
  x : Int
  y : Int
  z : Int
deriving DecidableEq, Repr

/-- Vector difference, as used in `currentSnapPoint - holdPoint`. -/
def Vec.sub (a b : Vec) : Vec := ⟨a.x - b.x, a.y - b.y, a.z - b.z⟩

/-- The tracker fields that `keyPressEvent` reads or writes.
`None` in Python is `none` here. -/
structure Tracker where
  holdPoint : Option Vec
  inputDistance : Option String
  locked_dir_vector : Option Vec
deriving DecidableEq, Repr

/-- The state of the object owning `keyPressEvent`: its `tracker`
attribute (absent or `None` both map to `none`) and `currentSnapPoint`. -/
structure SnapHandler where
  tracker : Option Tracker
  currentSnapPoint : Option Vec
deriving DecidableEq, Repr

/-- A Qt key event: `event.key()` and `event.text()`. -/
structure Event where
  key : Nat
  text : String
deriving DecidableEq, Repr

/- Standard Qt key codes used by the handler. -/

def Qt.Key_Escape : Nat := 0x01000000
def Qt.Key_Backspace : Nat := 0x01000003
def Qt.Key_Return : Nat := 0x01000004
def Qt.Key_Enter : Nat := 0x01000005
def Qt.Key_Delete : Nat := 0x01000007
def Qt.Key_Comma : Nat := 0x2c
def Qt.Key_Period : Nat := 0x2e
def Qt.Key_0 : Nat := 0x30
def Qt.Key_9 : Nat := 0x39
def Qt.Key_Q : Nat := 0x51

/-- Python truthiness of an optional string: `None` and `""` are falsy. -/
def truthyStr : Option String → Bool
  | none => false
  | some s => !(s == "")

/-- Python truthiness of an optional vector: only `None` is falsy
(a `FreeCAD.Vector` object is always truthy). -/
def truthyVec : Option Vec → Bool
  | none => false
  | some _ => true

/-- Python `str.isdigit`: nonempty and all characters are digits. -/
def str_isdigit (s : String) : Bool := !(s == "") && s.data.all Char.isDigit

/-- Python `str.strip` with no argument: remove leading and trailing
whitespace. -/
def pyStrip (s : String) : String :=
  ⟨((s.data.dropWhile Char.isWhitespace).reverse.dropWhile Char.isWhitespace).reverse⟩

/-- Modelled from the spec: `gui_trackers.SnapTracker` is not in the
sources; the spec says the tracker owns a held reference point.
`setHoldPoint` stores the given point as the hold point. -/
def setHoldPoint (t : Tracker) (p : Vec) : Tracker := { t with holdPoint := some p }

/-- Modelled from the spec: `clearHoldPoint` clears the held reference
point (the tracker code itself is not in the sources). -/
def clearHoldPoint (t : Tracker) : Tracker := { t with holdPoint := none }

/-- Modelled from the spec: the tracker owns a transient numeric-input
buffer; `processNumericInput` appends the given character(s) to it
(the tracker code itself is not in the sources). -/
def processNumericInput (t : Tracker) (s : String) : Tracker :=
  { t with inputDistance := some ((t.inputDistance.getD "") ++ s) }

/-- Modelled from the spec: `updateTracking` refreshes the visual
tracking; it changes none of the fields the handler reads. -/
def updateTracking (t : Tracker) : Tracker := t

/-- Modelled from the spec: `commitInput` commits the typed distance and
returns the target point; its effect on the fields the handler reads is
not specified, so it is modelled as the identity with no target. -/
def commitInput (t : Tracker) : Tracker × Option Vec := (t, none)

/-- One call into a tracker method, recorded in the order made. -/
inductive TrackerCall
  | setHoldPoint (p : Vec)
  | clearHoldPoint
  | processNumericInput (s : String)
  | updateTracking
  | getWp
  | getOrthogonalDirection (v : Vec)
  | commitInput
deriving DecidableEq, Repr

/-- The observable outcome of one `keyPressEvent` invocation. -/
structure StepResult where
  self : SnapHandler
  accepted : Bool
  callsDefault : Bool
  calls : List TrackerCall
  errors : List String
  messages : List String
deriving DecidableEq, Repr

/-- Branch for `Qt.Key_Q` (lines 337-343): set the hold point from the
current snap point when one exists, then accept. -/
def handleQ (self : SnapHandler) (tr : Tracker) : StepResult :=
  match self.currentSnapPoint with
  | some p =>
    { self := { self with tracker := some (setHoldPoint tr p) },
      accepted := true, callsDefault := false,
      calls := [TrackerCall.setHoldPoint p], errors := [],
      messages := ["Hold point set to current snap point.\n"] }
  | none =>
    { self := self, accepted := true, callsDefault := false,
      calls := [], errors := [], messages := [] }

/-- Branch for `Qt.Key_Escape` (lines 345-350): clear the hold point. -/
def handleEscape (self : SnapHandler) (tr : Tracker) : StepResult :=
  { self := { self with tracker := some (clearHoldPoint tr) },
    accepted := true, callsDefault := false,
    calls := [TrackerCall.clearHoldPoint], errors := [],
    messages := ["Hold point cleared.\n"] }

/-- Branch for digit keys (lines 352-376). With no hold point the event
is accepted untouched; with a non-digit text an error is logged; on the
first digit (`inputDistance is None`) the direction lock is computed
from `currentSnapPoint - holdPoint` rotated into the working-plane
frame; later digits only update the number. -/
def handleDigit (localRot getOrtho : Vec → Vec) (self : SnapHandler)
    (tr : Tracker) (digit : String) : StepResult :=
  if !(truthyVec tr.holdPoint) then
    { self := self, accepted := true, callsDefault := false,
      calls := [], errors := [], messages := [] }
  else if !(str_isdigit digit) then
    { self := self, accepted := true, callsDefault := false, calls := [],
      errors := ["Invalid numeric input ignored: " ++ digit ++ "\n"],
      messages := [] }
  else if tr.inputDistance == none then
    let tr1 := processNumericInput tr digit
    match tr1.holdPoint, self.currentSnapPoint with
    | some hp, some csp =>
      let direction := Vec.sub csp hp
      let direction_local := localRot direction
      let tr2 := { tr1 with locked_dir_vector := some (getOrtho direction_local) }
      { self := { self with tracker := some tr2 },
        accepted := true, callsDefault := false,
        calls := [TrackerCall.processNumericInput digit, TrackerCall.getWp,
                  TrackerCall.getOrthogonalDirection direction_local],
        errors := [], messages := [] }
    | _, _ =>
      { self := { self with tracker := some tr1 },
        accepted := true, callsDefault := false,
        calls := [TrackerCall.processNumericInput digit],
        errors := [], messages := [] }
  else
    { self := { self with tracker := some (processNumericInput tr digit) },
      accepted := true, callsDefault := false,
      calls := [TrackerCall.processNumericInput digit],
      errors := [], messages := [] }

/-- Branch for Backspace/Delete (lines 378-384): drop the last character
of a truthy input buffer and refresh tracking; otherwise just accept. -/
def handleBackspace (self : SnapHandler) (tr : Tracker) : StepResult :=
  if truthyStr tr.inputDistance then
    let s := tr.inputDistance.getD ""
    let tr1 := updateTracking { tr with inputDistance := some (s.dropRight 1) }
    { self := { self with tracker := some tr1 },
      accepted := true, callsDefault := false,
      calls := [TrackerCall.updateTracking], errors := [],
      messages := ["Numeric input backspaced.\n"] }
  else
    { self := self, accepted := true, callsDefault := false,
      calls := [], errors := [], messages := [] }

/-- Branch for Period/Comma (lines 386-390): forward a decimal separator
unconditionally. -/
def handleDecimalSeparator (self : SnapHandler) (tr : Tracker) : StepResult :=
  { self := { self with tracker := some (processNumericInput tr ".") },
    accepted := true, callsDefault := false,
    calls := [TrackerCall.processNumericInput "."],
    errors := [], messages := [] }

/-- Branch for Return/Enter (lines 392-405): refuse to commit an empty
or all-whitespace buffer with an error; otherwise commit. -/
def handleReturnKey (self : SnapHandler) (tr : Tracker) : StepResult :=
  if !(truthyStr tr.inputDistance) || pyStrip (tr.inputDistance.getD "") == "" then
    { self := self, accepted := true, callsDefault := false, calls := [],
      errors := ["No valid numeric input. Press Escape to reset or enter a valid number.\n"],
      messages := [] }
  else
    let r := commitInput tr
    { self := { self with tracker := some r.1 },
      accepted := true, callsDefault := false,
      calls := [TrackerCall.commitInput], errors := [],
      messages := match r.2 with
        | some _ => ["Geometry created.\n"]
        | none => [] }

/-- `keyPressEvent` (lines 328-408): dispatch on the key code, after the
defensive check that the tracker attribute exists and is not `None`. -/
def keyPressEvent (localRot getOrtho : Vec → Vec) (self : SnapHandler)
    (event : Event) : StepResult :=
  match self.tracker with
  | none =>
    { self := self, accepted := true, callsDefault := false, calls := [],
      errors := ["Error: Tracker is missing. Cannot process input.\n"],
      messages := [] }
  | some tr =>
    if event.key == Qt.Key_Q then handleQ self tr
    else if event.key == Qt.Key_Escape then handleEscape self tr
    else if Qt.Key_0 ≤ event.key && event.key ≤ Qt.Key_9 then
      handleDigit localRot getOrtho self tr event.text
    else if event.key == Qt.Key_Backspace || event.key == Qt.Key_Delete then
      handleBackspace self tr
    else if event.key == Qt.Key_Period || event.key == Qt.Key_Comma then
      handleDecimalSeparator self tr
    else if event.key == Qt.Key_Return || event.key == Qt.Key_Enter then
      handleReturnKey self tr
    else
      { self := self, accepted := false, callsDefault := true, calls := [],
        errors := [], messages := [] }

/-!
The snap command classes. `GetResources` dictionaries are embedded as
association lists from key to value; `QT_TRANSLATE_NOOP(ctx, text)`
returns `text`. `Checkable` is the result of `isChecked()`, a Bool.
-/

/-- A value in a `GetResources` dictionary: a string or a boolean. -/
inductive ResValue
  | s (v : String)
  | b (v : Bool)
deriving DecidableEq, Repr

/-- `Draft_Snap_Lock.GetResources` (lines 82-90). -/
def Draft_Snap_Lock_GetResources (checked : Bool) : List (String × ResValue) :=
  [("Pixmap", ResValue.s "Draft_Snap_Lock"),
   ("Accel", ResValue.s "Shift+S"),
   ("MenuText", ResValue.s "Snap lock"),
   ("ToolTip", ResValue.s "Enables or disables snapping globally."),
   ("CmdType", ResValue.s "NoTransaction"),
   ("Checkable", ResValue.b checked)]

/-- `Draft_Snap_Midpoint.GetResources` (lines 114-119). -/
def Draft_Snap_Midpoint_GetResources (checked : Bool) : List (String × ResValue) :=
  [("Pixmap", ResValue.s "Draft_Snap_Midpoint"),
   ("MenuText", ResValue.s "Snap midpoint"),
   ("ToolTip", ResValue.s "Snaps to the midpoint of edges."),
   ("CmdType", ResValue.s "NoTransaction"),
   ("Checkable", ResValue.b checked)]

/-- `Draft_Snap_Perpendicular.GetResources` (lines 128-133). -/
def Draft_Snap_Perpendicular_GetResources (checked : Bool) : List (String × ResValue) :=
  [("Pixmap", ResValue.s "Draft_Snap_Perpendicular"),
   ("MenuText", ResValue.s "Snap perpendicular"),
   ("ToolTip", ResValue.s "Snaps to the perpendicular points on faces and edges."),
   ("CmdType", ResValue.s "NoTransaction"),
   ("Checkable", ResValue.b checked)]

/-- `Draft_Snap_Grid.GetResources` (lines 142-147). -/
def Draft_Snap_Grid_GetResources (checked : Bool) : List (String × ResValue) :=
  [("Pixmap", ResValue.s "Draft_Snap_Grid"),
   ("MenuText", ResValue.s "Snap grid"),
   ("ToolTip", ResValue.s "Snaps to the intersections of grid lines."),
   ("CmdType", ResValue.s "NoTransaction"),
   ("Checkable", ResValue.b checked)]

/-- `Draft_Snap_Intersection.GetResources` (lines 156-161). -/
def Draft_Snap_Intersection_GetResources (checked : Bool) : List (String × ResValue) :=
  [("Pixmap", ResValue.s "Draft_Snap_Intersection"),
   ("MenuText", ResValue.s "Snap intersection"),
   ("ToolTip", ResValue.s "Snaps to the intersection of two edges."),
   ("CmdType", ResValue.s "NoTransaction"),
   ("Checkable", ResValue.b checked)]

/-- `Draft_Snap_Parallel.GetResources` (lines 170-175). -/
def Draft_Snap_Parallel_GetResources (checked : Bool) : List (String × ResValue) :=
  [("Pixmap", ResValue.s "Draft_Snap_Parallel"),
   ("MenuText", ResValue.s "Snap parallel"),
   ("ToolTip", ResValue.s "Snaps to an imaginary line parallel to straight edges."),
   ("CmdType", ResValue.s "NoTransaction"),
   ("Checkable", ResValue.b checked)]

/-- `Draft_Snap_Endpoint.GetResources` (lines 184-189). -/
def Draft_Snap_Endpoint_GetResources (checked : Bool) : List (String × ResValue) :=
  [("Pixmap", ResValue.s "Draft_Snap_Endpoint"),
   ("MenuText", ResValue.s "Snap endpoint"),
   ("ToolTip", ResValue.s "Snaps to the endpoints of edges."),
   ("CmdType", ResValue.s "NoTransaction"),
   ("Checkable", ResValue.b checked)]

/-- `Draft_Snap_Angle.GetResources` (lines 198-203). -/
def Draft_Snap_Angle_GetResources (checked : Bool) : List (String × ResValue) :=
  [("Pixmap", ResValue.s "Draft_Snap_Angle"),
   ("MenuText", ResValue.s "Snap angle"),
   ("ToolTip", ResValue.s "Snaps to the special cardinal points on circular edges, at multiples of 30 and 45 degrees."),
   ("CmdType", ResValue.s "NoTransaction"),
   ("Checkable", ResValue.b checked)]

/-- `Draft_Snap_Center.GetResources` (lines 212-217). -/
def Draft_Snap_Center_GetResources (checked : Bool) : List (String × ResValue) :=
  [("Pixmap", ResValue.s "Draft_Snap_Center"),
   ("MenuText", ResValue.s "Snap center"),
   ("ToolTip", ResValue.s "Snaps to the center point of faces and circular edges, and to the Placement point of Working Plane Proxies and Building Parts."),
   ("CmdType", ResValue.s "NoTransaction"),
   ("Checkable", ResValue.b checked)]

/-- `Draft_Snap_Extension.GetResources` (lines 226-231). -/
def Draft_Snap_Extension_GetResources (checked : Bool) : List (String × ResValue) :=
  [("Pixmap", ResValue.s "Draft_Snap_Extension"),
   ("MenuText", ResValue.s "Snap extension"),
   ("ToolTip", ResValue.s "Snaps to an imaginary line that extends beyond the endpoints of straight edges."),
   ("CmdType", ResValue.s "NoTransaction"),
   ("Checkable", ResValue.b checked)]

/-- `Draft_Snap_Near.GetResources` (lines 240-245). -/
def Draft_Snap_Near_GetResources (checked : Bool) : List (String × ResValue) :=
  [("Pixmap", ResValue.s "Draft_Snap_Near"),
   ("MenuText", ResValue.s "Snap near"),
   ("ToolTip", ResValue.s "Snaps to the nearest point on faces and edges."),
   ("CmdType", ResValue.s "NoTransaction"),
   ("Checkable", ResValue.b checked)]

/-- `Draft_Snap_Ortho.GetResources` (lines 254-259). -/
def Draft_Snap_Ortho_GetResources (checked : Bool) : List (String × ResValue) :=
  [("Pixmap", ResValue.s "Draft_Snap_Ortho"),
   ("MenuText", ResValue.s "Snap ortho"),
   ("ToolTip", ResValue.s "Snaps to imaginary lines that cross the previous point at multiples of 45 degrees."),
   ("CmdType", ResValue.s "NoTransaction"),
   ("Checkable", ResValue.b checked)]

/-- `Draft_Snap_Special.GetResources` (lines 268-273). -/
def Draft_Snap_Special_GetResources (checked : Bool) : List (String × ResValue) :=
  [("Pixmap", ResValue.s "Draft_Snap_Special"),
   ("MenuText", ResValue.s "Snap special"),
   ("ToolTip", ResValue.s "Snaps to special points defined by the object."),
   ("CmdType", ResValue.s "NoTransaction"),
   ("Checkable", ResValue.b checked)]

/-- `Draft_Snap_Dimensions.GetResources` (lines 282-287). -/
def Draft_Snap_Dimensions_GetResources (checked : Bool) : List (String × ResValue) :=
  [("Pixmap", ResValue.s "Draft_Snap_Dimensions"),
   ("MenuText", ResValue.s "Snap dimensions"),
   ("ToolTip", ResValue.s "Shows temporary X and Y dimensions."),
   ("CmdType", ResValue.s "NoTransaction"),
   ("Checkable", ResValue.b checked)]

/-- `Draft_Snap_WorkingPlane.GetResources` (lines 296-301). -/
def Draft_Snap_WorkingPlane_GetResources (checked : Bool) : List (String × ResValue) :=
  [("Pixmap", ResValue.s "Draft_Snap_WorkingPlane"),
   ("MenuText", ResValue.s "Snap working plane"),
   ("ToolTip", ResValue.s "Projects snap points onto the current working plane."),
   ("CmdType", ResValue.s "NoTransaction"),
   ("Checkable", ResValue.b checked)]

/-- `ShowSnapBar.GetResources` (lines 310-314). -/
def ShowSnapBar_GetResources : List (String × ResValue) :=
  [("Pixmap", ResValue.s "Draft_Snap"),
   ("MenuText", ResValue.s "Show snap toolbar"),
   ("ToolTip", ResValue.s "Shows the snap toolbar if it is hidden."),
   ("CmdType", ResValue.s "NoTransaction")]

/-- All commands registered through `Gui.addCommand` in this module,
paired with their `GetResources` dictionaries (under a common
`isChecked` result for the checkable ones). -/
def registeredSnapCommandResources (checked : Bool) :
    List (String × List (String × ResValue)) :=
  [("Draft_Snap_Lock", Draft_Snap_Lock_GetResources checked),
   ("Draft_Snap_Midpoint", Draft_Snap_Midpoint_GetResources checked),
   ("Draft_Snap_Perpendicular", Draft_Snap_Perpendicular_GetResources checked),
   ("Draft_Snap_Grid", Draft_Snap_Grid_GetResources checked),
   ("Draft_Snap_Intersection", Draft_Snap_Intersection_GetResources checked),
   ("Draft_Snap_Parallel", Draft_Snap_Parallel_GetResources checked),
   ("Draft_Snap_Endpoint", Draft_Snap_Endpoint_GetResources checked),
   ("Draft_Snap_Angle", Draft_Snap_Angle_GetResources checked),
   ("Draft_Snap_Center", Draft_Snap_Center_GetResources checked),
   ("Draft_Snap_Extension", Draft_Snap_Extension_GetResources checked),
   ("Draft_Snap_Near", Draft_Snap_Near_GetResources checked),
   ("Draft_Snap_Ortho", Draft_Snap_Ortho_GetResources checked),
   ("Draft_Snap_Special", Draft_Snap_Special_GetResources checked),
   ("Draft_Snap_Dimensions", Draft_Snap_Dimensions_GetResources checked),
   ("Draft_Snap_WorkingPlane", Draft_Snap_WorkingPlane_GetResources checked),
   ("Draft_ShowSnapBar", ShowSnapBar_GetResources)]

/-- The keys of a `GetResources` dictionary. -/
def resourceKeys (r : List (String × ResValue)) : List String := r.map Prod.fst

/-!
The host snapping service `Gui.Snapper` and the `Draft_Snap_Base`
methods that guard against its absence.
-/

/-- A call into `Gui.Snapper` made by the base class. -/
inductive SnapperCall
  | toggle_snap (mode : String) (status : Bool)
deriving DecidableEq, Repr

/-- The part of `Gui.Snapper` the base class inspects:
whether its `snap_modes` attribute exists and is not `None`. -/
structure SnapperState where
  snap_modes_present : Bool
deriving DecidableEq, Repr

/-- `Draft_Snap_Base.Activated` (lines 47-51): when `Gui.Snapper`
exists, toggle the snap named by the class name with its first 11
characters removed; otherwise silently return. Returns the calls made
into the Snapper and the errors printed. -/
def Draft_Snap_Base_Activated (snapper : Option SnapperState)
    (clsName : String) (status : Nat) : List SnapperCall × List String :=
  match snapper with
  | some _ => ([SnapperCall.toggle_snap (clsName.drop 11) (status != 0)], [])
  | none => ([], [])

/-- `Draft_Snap_Base.toggleSnapMode` (lines 60-73): error out when
`Gui.Snapper` is missing or has no usable `snap_modes`; otherwise
toggle the snap. Returns the calls made and the errors printed. -/
def toggleSnapMode (snapper : Option SnapperState) (mode : String)
    (status : Bool) : List SnapperCall × List String :=
  match snapper with
  | none => ([], ["Error: Gui.Snapper is missing. Cannot toggle snap mode.\n"])
  | some snp =>
    if !snp.snap_modes_present then
      ([], ["Error: Gui.Snapper.snap_modes is missing. Cannot check snap state.\n"])
    else
      ([SnapperCall.toggle_snap mode status], [])

/-!
Dispatch lemmas: under hypotheses pinning the key code, `keyPressEvent`
reduces to the corresponding branch.
-/

theorem dispatch_q (lr go : Vec → Vec) (self : SnapHandler) (ev : Event)
    (tr : Tracker) (h : self.tracker = some tr) (hk : ev.key = Qt.Key_Q) :
    keyPressEvent lr go self ev = handleQ self tr := by
  unfold keyPressEvent
  rw [h]
  simp [hk]

theorem dispatch_escape (lr go : Vec → Vec) (self : SnapHandler) (ev : Event)
    (tr : Tracker) (h : self.tracker = some tr) (hk : ev.key = Qt.Key_Escape) :
    keyPressEvent lr go self ev = handleEscape self tr := by
  have hq : ¬ ev.key = Qt.Key_Q := by
    rw [hk]; unfold Qt.Key_Escape Qt.Key_Q; omega
  have c2 : (ev.key == Qt.Key_Escape) = true := by simp [hk]
  unfold keyPressEvent
  rw [h]
  simp [hq, c2]

theorem dispatch_digit (lr go : Vec → Vec) (self : SnapHandler) (ev : Event)
    (tr : Tracker) (h : self.tracker = some tr)
    (h0 : Qt.Key_0 ≤ ev.key) (h9 : ev.key ≤ Qt.Key_9) :
    keyPressEvent lr go self ev = handleDigit lr go self tr ev.text := by
  have h0' : 0x30 ≤ ev.key := h0
  have h9' : ev.key ≤ 0x39 := h9
  have hq : ¬ ev.key = Qt.Key_Q := by unfold Qt.Key_Q; omega
  have he : ¬ ev.key = Qt.Key_Escape := by unfold Qt.Key_Escape; omega
  unfold keyPressEvent
  rw [h]
  simp [hq, he, h0, h9]

theorem dispatch_backspace (lr go : Vec → Vec) (self : SnapHandler) (ev : Event)
    (tr : Tracker) (h : self.tracker = some tr)
    (hk : ev.key = Qt.Key_Backspace ∨ ev.key = Qt.Key_Delete) :
    keyPressEvent lr go self ev = handleBackspace self tr := by
  have hk' : ev.key = 0x01000003 ∨ ev.key = 0x01000007 := hk
  have hq : ¬ ev.key = Qt.Key_Q := by unfold Qt.Key_Q; omega
  have he : ¬ ev.key = Qt.Key_Escape := by unfold Qt.Key_Escape; omega
  have hd : ¬ (Qt.Key_0 ≤ ev.key ∧ ev.key ≤ Qt.Key_9) := by
    unfold Qt.Key_0 Qt.Key_9; omega
  have c4 : (ev.key == Qt.Key_Backspace || ev.key == Qt.Key_Delete) = true := by
    rcases hk with hk | hk <;> simp [hk]
  unfold keyPressEvent
  rw [h]
  simp [hq, he, hd, c4]

theorem dispatch_decimal (lr go : Vec → Vec) (self : SnapHandler) (ev : Event)
    (tr : Tracker) (h : self.tracker = some tr)
    (hk : ev.key = Qt.Key_Period ∨ ev.key = Qt.Key_Comma) :
    keyPressEvent lr go self ev = handleDecimalSeparator self tr := by
  have hk' : ev.key = 0x2e ∨ ev.key = 0x2c := hk
  have hq : ¬ ev.key = Qt.Key_Q := by unfold Qt.Key_Q; omega
  have he : ¬ ev.key = Qt.Key_Escape := by unfold Qt.Key_Escape; omega
  have hd : ¬ (Qt.Key_0 ≤ ev.key ∧ ev.key ≤ Qt.Key_9) := by
    unfold Qt.Key_0 Qt.Key_9; omega
  have hb : ¬ ev.key = Qt.Key_Backspace := by unfold Qt.Key_Backspace; omega
  have hdel : ¬ ev.key = Qt.Key_Delete := by unfold Qt.Key_Delete; omega
  have c5 : (ev.key == Qt.Key_Period || ev.key == Qt.Key_Comma) = true := by
    rcases hk with hk | hk <;> simp [hk]
  unfold keyPressEvent
  rw [h]
  simp [hq, he, hd, hb, hdel, c5]

theorem dispatch_return (lr go : Vec → Vec) (self : SnapHandler) (ev : Event)
    (tr : Tracker) (h : self.tracker = some tr)
    (hk : ev.key = Qt.Key_Return ∨ ev.key = Qt.Key_Enter) :
    keyPressEvent lr go self ev = handleReturnKey self tr := by
  have hk' : ev.key = 0x01000004 ∨ ev.key = 0x01000005 := hk
  have hq : ¬ ev.key = Qt.Key_Q := by unfold Qt.Key_Q; omega
  have he : ¬ ev.key = Qt.Key_Escape := by unfold Qt.Key_Escape; omega
  have hd : ¬ (Qt.Key_0 ≤ ev.key ∧ ev.key ≤ Qt.Key_9) := by
    unfold Qt.Key_0 Qt.Key_9; omega
  have hb : ¬ ev.key = Qt.Key_Backspace := by unfold Qt.Key_Backspace; omega
  have hdel : ¬ ev.key = Qt.Key_Delete := by unfold Qt.Key_Delete; omega
  have hp : ¬ ev.key = Qt.Key_Period := by unfold Qt.Key_Period; omega
  have hc : ¬ ev.key = Qt.Key_Comma := by unfold Qt.Key_Comma; omega
  have c6 : (ev.key == Qt.Key_Return || ev.key == Qt.Key_Enter) = true := by
    rcases hk with hk | hk <;> simp [hk]
  unfold keyPressEvent
  rw [h]
  simp [hq, he, hd, hb, hdel, hp, hc, c6]

/-- C5: pressing Q sets the tracker's hold point to the current snap
point exactly when `currentSnapPoint` is not `None` (and calls no
tracker method when it is `None`); pressing Escape unconditionally
clears the hold point via `clearHoldPoint`; in both cases the event is
accepted. -/
theorem keyPressEvent_q_sets_escape_clears
    (lr go : Vec → Vec) (self : SnapHandler) (ev : Event) (tr : Tracker)
    (h : self.tracker = some tr) :
    (ev.key = Qt.Key_Q →
      (self.currentSnapPoint = none →
        keyPressEvent lr go self ev =
          { self := self, accepted := true, callsDefault := false,
            calls := [], errors := [], messages := [] }) ∧
      (∀ p, self.currentSnapPoint = some p →
        (keyPressEvent lr go self ev).calls = [TrackerCall.setHoldPoint p] ∧
        (keyPressEvent lr go self ev).self.tracker = some (setHoldPoint tr p) ∧
        (keyPressEvent lr go self ev).accepted = true)) ∧
    (ev.key = Qt.Key_Escape →
      (keyPressEvent lr go self ev).calls = [TrackerCall.clearHoldPoint] ∧
      (keyPressEvent lr go self ev).self.tracker = some (clearHoldPoint tr) ∧
      (keyPressEvent lr go self ev).accepted = true) := by
  constructor
  · intro hk
    rw [dispatch_q lr go self ev tr h hk]
    constructor
    · intro hcs; simp [handleQ, hcs]
    · intro p hcs; simp [handleQ, hcs]
  · intro hk
    rw [dispatch_escape lr go self ev tr h hk]
    simp [handleEscape]

theorem keyPressEvent_q_sets_escape_clears_witness :
    (keyPressEvent id id ⟨some ⟨none, none, none⟩, some ⟨1, 2, 3⟩⟩
        ⟨Qt.Key_Q, ""⟩).calls = [TrackerCall.setHoldPoint ⟨1, 2, 3⟩] :=
  (((keyPressEvent_q_sets_escape_clears id id
      ⟨some ⟨none, none, none⟩, some ⟨1, 2, 3⟩⟩ ⟨Qt.Key_Q, ""⟩
      ⟨none, none, none⟩ rfl).1 rfl).2 ⟨1, 2, 3⟩ rfl).1

/-- C9: pressing Period or Comma calls `processNumericInput "."`
unconditionally after the tracker-existence check: the decimal
separator path is guarded neither by the hold point being set nor by a
non-empty buffer, so it reaches the tracker even with no hold point. -/
theorem keyPressEvent_decimal_unconditional
    (lr go : Vec → Vec) (self : SnapHandler) (ev : Event) (tr : Tracker)
    (h : self.tracker = some tr)
    (hk : ev.key = Qt.Key_Period ∨ ev.key = Qt.Key_Comma) :
    (keyPressEvent lr go self ev).calls = [TrackerCall.processNumericInput "."] ∧
    (keyPressEvent lr go self ev).self.tracker = some (processNumericInput tr ".") ∧
    (keyPressEvent lr go self ev).accepted = true := by
  rw [dispatch_decimal lr go self ev tr h hk]
  simp [handleDecimalSeparator]

theorem keyPressEvent_decimal_unconditional_witness :
    (keyPressEvent id id ⟨some ⟨none, none, none⟩, none⟩
        ⟨Qt.Key_Comma, ","⟩).calls = [TrackerCall.processNumericInput "."] :=
  (keyPressEvent_decimal_unconditional id id ⟨some ⟨none, none, none⟩, none⟩
    ⟨Qt.Key_Comma, ","⟩ ⟨none, none, none⟩ rfl (Or.inr rfl)).1

/-- C10: a key code in the digit range whose event text is not a digit
string, with a hold point set, logs an error, accepts the event and
returns without calling `processNumericInput`, leaving the state
unchanged. -/
theorem keyPressEvent_digit_nondigit_text
    (lr go : Vec → Vec) (self : SnapHandler) (ev : Event) (tr : Tracker) (hp : Vec)
    (h : self.tracker = some tr)
    (h0 : Qt.Key_0 ≤ ev.key) (h9 : ev.key ≤ Qt.Key_9)
    (hh : tr.holdPoint = some hp)
    (ht : str_isdigit ev.text = false) :
    keyPressEvent lr go self ev =
      { self := self, accepted := true, callsDefault := false, calls := [],
        errors := ["Invalid numeric input ignored: " ++ ev.text ++ "\n"],
        messages := [] } := by
  rw [dispatch_digit lr go self ev tr h h0 h9]
  simp [handleDigit, truthyVec, hh, ht]

theorem keyPressEvent_digit_nondigit_text_witness :
    (keyPressEvent id id ⟨some ⟨some ⟨0, 0, 0⟩, none, none⟩, none⟩
        ⟨0x30, "a"⟩).errors = ["Invalid numeric input ignored: a\n"] := by
  rw [keyPressEvent_digit_nondigit_text id id
    ⟨some ⟨some ⟨0, 0, 0⟩, none, none⟩, none⟩ ⟨0x30, "a"⟩
    ⟨some ⟨0, 0, 0⟩, none, none⟩ ⟨0, 0, 0⟩ rfl (by decide) (by decide) rfl (by decide)]
  rfl

/-- C1: for digit-range key codes, the digit text is forwarded to
`processNumericInput` only when the tracker holds a hold point; with no
hold point the event is accepted and returned with no tracker call and
the handler state unchanged. -/
theorem keyPressEvent_digit_requires_holdPoint
    (lr go : Vec → Vec) (self : SnapHandler) (ev : Event) (tr : Tracker)
    (h : self.tracker = some tr)
    (h0 : Qt.Key_0 ≤ ev.key) (h9 : ev.key ≤ Qt.Key_9) :
    (tr.holdPoint = none →
      keyPressEvent lr go self ev =
        { self := self, accepted := true, callsDefault := false,
          calls := [], errors := [], messages := [] }) ∧
    (∀ s, TrackerCall.processNumericInput s ∈ (keyPressEvent lr go self ev).calls →
      tr.holdPoint ≠ none) ∧
    (∀ hp, tr.holdPoint = some hp → str_isdigit ev.text = true →
      TrackerCall.processNumericInput ev.text ∈ (keyPressEvent lr go self ev).calls) := by
  rw [dispatch_digit lr go self ev tr h h0 h9]
  refine ⟨?_, ?_, ?_⟩
  · intro hh
    simp [handleDigit, truthyVec, hh]
  · intro s hs hh
    simp [handleDigit, truthyVec, hh] at hs
  · intro hp hh ht
    rcases hin : tr.inputDistance with _ | s
    · rcases hcs : self.currentSnapPoint with _ | csp
      · simp [handleDigit, truthyVec, hh, ht, hin, hcs, processNumericInput]
      · simp [handleDigit, truthyVec, hh, ht, hin, hcs, processNumericInput]
    · simp [handleDigit, truthyVec, hh, ht, hin]

theorem keyPressEvent_digit_requires_holdPoint_witness :
    keyPressEvent id id ⟨some ⟨none, none, none⟩, none⟩ ⟨0x31, "1"⟩ =
      { self := ⟨some ⟨none, none, none⟩, none⟩, accepted := true,
        callsDefault := false, calls := [], errors := [], messages := [] } :=
  (keyPressEvent_digit_requires_holdPoint id id
    ⟨some ⟨none, none, none⟩, none⟩ ⟨0x31, "1"⟩ ⟨none, none, none⟩
    rfl (by decide) (by decide)).1 rfl

/-- C4: on Backspace or Delete, a non-empty input buffer loses exactly
its last character and `updateTracking` is called; an empty or `None`
buffer leaves the handler untouched with the event accepted. -/
theorem keyPressEvent_backspace_drops_last
    (lr go : Vec → Vec) (self : SnapHandler) (ev : Event) (tr : Tracker)
    (h : self.tracker = some tr)
    (hk : ev.key = Qt.Key_Backspace ∨ ev.key = Qt.Key_Delete) :
    (∀ s, tr.inputDistance = some s → s ≠ "" →
      (keyPressEvent lr go self ev).self.tracker =
        some { tr with inputDistance := some (s.dropRight 1) } ∧
      (keyPressEvent lr go self ev).calls = [TrackerCall.updateTracking] ∧
      (keyPressEvent lr go self ev).accepted = true) ∧
    (truthyStr tr.inputDistance = false →
      (keyPressEvent lr go self ev).self = self ∧
      (keyPressEvent lr go self ev).calls = [] ∧
      (keyPressEvent lr go self ev).accepted = true) := by
  rw [dispatch_backspace lr go self ev tr h hk]
  constructor
  · intro s hs hne
    have hT : truthyStr tr.inputDistance = true := by simp [truthyStr, hs, hne]
    simp [handleBackspace, hT, hs, hne, truthyStr, updateTracking]
  · intro hf
    simp [handleBackspace, hf]

theorem keyPressEvent_backspace_drops_last_witness :
    (keyPressEvent id id ⟨some ⟨none, some "12", none⟩, none⟩
        ⟨Qt.Key_Backspace, ""⟩).self.tracker = some ⟨none, some "1", none⟩ := by
  have h := ((keyPressEvent_backspace_drops_last id id
    ⟨some ⟨none, some "12", none⟩, none⟩ ⟨Qt.Key_Backspace, ""⟩
    ⟨none, some "12", none⟩ rfl (Or.inl rfl)).1 "12" rfl (by decide)).1
  rw [h]
  rfl

/-- C3: on Return or Enter, `commitInput` is invoked if and only if the
input buffer is non-empty and not only whitespace; otherwise an error
is logged and the handler returns with the tracker state unchanged. -/
theorem keyPressEvent_return_commit_iff
    (lr go : Vec → Vec) (self : SnapHandler) (ev : Event) (tr : Tracker)
    (h : self.tracker = some tr)
    (hk : ev.key = Qt.Key_Return ∨ ev.key = Qt.Key_Enter) :
    (TrackerCall.commitInput ∈ (keyPressEvent lr go self ev).calls ↔
      truthyStr tr.inputDistance = true ∧ pyStrip (tr.inputDistance.getD "") ≠ "") ∧
    ((truthyStr tr.inputDistance = false ∨ pyStrip (tr.inputDistance.getD "") = "") →
      (keyPressEvent lr go self ev).self = self ∧
      (keyPressEvent lr go self ev).calls = [] ∧
      (keyPressEvent lr go self ev).errors =
        ["No valid numeric input. Press Escape to reset or enter a valid number.\n"]) := by
  rw [dispatch_return lr go self ev tr h hk]
  by_cases hT : truthyStr tr.inputDistance = true
  · by_cases hS : pyStrip (tr.inputDistance.getD "") = ""
    · simp [handleReturnKey, hT, hS, commitInput]
    · simp [handleReturnKey, hT, hS, commitInput]
  · have hT' : truthyStr tr.inputDistance = false := by simpa using hT
    simp [handleReturnKey, hT', commitInput]

theorem keyPressEvent_return_commit_iff_witness :
    TrackerCall.commitInput ∈
      (keyPressEvent id id ⟨some ⟨none, some "12", none⟩, none⟩
        ⟨Qt.Key_Return, ""⟩).calls :=
  ((keyPressEvent_return_commit_iff id id ⟨some ⟨none, some "12", none⟩, none⟩
    ⟨Qt.Key_Return, ""⟩ ⟨none, some "12", none⟩ rfl (Or.inl rfl)).1).mpr
    ⟨by decide, by decide⟩

/-- C2: the locked direction vector is computed only on the first digit
of an entry (buffer `None`, hold point and snap point both present), as
the orthogonal direction of the snap-minus-hold difference rotated into
the working-plane frame; subsequent digits call `processNumericInput`
but leave `locked_dir_vector` unchanged. -/
theorem keyPressEvent_locked_dir_first_digit_only
    (lr go : Vec → Vec) (self : SnapHandler) (ev : Event) (tr : Tracker) (hp : Vec)
    (h : self.tracker = some tr)
    (h0 : Qt.Key_0 ≤ ev.key) (h9 : ev.key ≤ Qt.Key_9)
    (ht : str_isdigit ev.text = true)
    (hh : tr.holdPoint = some hp) :
    (∀ csp, tr.inputDistance = none → self.currentSnapPoint = some csp →
      (keyPressEvent lr go self ev).self.tracker =
        some { processNumericInput tr ev.text with
               locked_dir_vector := some (go (lr (Vec.sub csp hp))) } ∧
      (keyPressEvent lr go self ev).calls =
        [TrackerCall.processNumericInput ev.text, TrackerCall.getWp,
         TrackerCall.getOrthogonalDirection (lr (Vec.sub csp hp))]) ∧
    (∀ s, tr.inputDistance = some s →
      (keyPressEvent lr go self ev).calls = [TrackerCall.processNumericInput ev.text] ∧
      (keyPressEvent lr go self ev).self.tracker = some (processNumericInput tr ev.text) ∧
      (processNumericInput tr ev.text).locked_dir_vector = tr.locked_dir_vector) := by
  rw [dispatch_digit lr go self ev tr h h0 h9]
  constructor
  · intro csp hin hcs
    simp [handleDigit, truthyVec, hh, ht, hin, hcs, processNumericInput]
  · intro s hin
    simp [handleDigit, truthyVec, hh, ht, hin, processNumericInput]

theorem keyPressEvent_locked_dir_first_digit_only_witness :
    (keyPressEvent id id ⟨some ⟨some ⟨0, 0, 0⟩, none, none⟩, some ⟨2, 0, 0⟩⟩
        ⟨0x35, "5"⟩).self.tracker =
      some ⟨some ⟨0, 0, 0⟩, some "5", some ⟨2, 0, 0⟩⟩ := by
  have h := ((keyPressEvent_locked_dir_first_digit_only id id
    ⟨some ⟨some ⟨0, 0, 0⟩, none, none⟩, some ⟨2, 0, 0⟩⟩ ⟨0x35, "5"⟩
    ⟨some ⟨0, 0, 0⟩, none, none⟩ ⟨0, 0, 0⟩ rfl (by decide) (by decide)
    (by decide) rfl).1 ⟨2, 0, 0⟩ rfl rfl).1
  rw [h]
  rfl

/-- C6: with `Gui.Snapper` missing, `Draft_Snap_Base.Activated` silently
returns and `toggleSnapMode` logs an error, neither making any snap-mode
change; with the tracker attribute missing or `None`, `keyPressEvent`
logs an error, accepts the event, and returns without calling any
tracker method, leaving the caller-visible state unchanged. -/
theorem missing_host_guards_noop
    (lr go : Vec → Vec) (clsName mode : String) (status : Nat) (bstatus : Bool)
    (csp : Option Vec) (ev : Event) :
    (Draft_Snap_Base_Activated none clsName status).1 = [] ∧
    (toggleSnapMode none mode bstatus).1 = [] ∧
    (toggleSnapMode none mode bstatus).2 =
      ["Error: Gui.Snapper is missing. Cannot toggle snap mode.\n"] ∧
    keyPressEvent lr go ⟨none, csp⟩ ev =
      { self := ⟨none, csp⟩, accepted := true, callsDefault := false, calls := [],
        errors := ["Error: Tracker is missing. Cannot process input.\n"],
        messages := [] } :=
  ⟨rfl, rfl, rfl, rfl⟩

/-- C8 as stated is false: `Draft_Snap_Midpoint.GetResources` (like all
commands other than `Draft_Snap_Lock`) returns no `Accel` key, and
`ShowSnapBar.GetResources` returns no `Checkable` key either. -/
theorem getResources_all_keys_counterexample :
    ¬ (∀ r ∈ registeredSnapCommandResources true,
        ∀ k ∈ ["Pixmap", "Accel", "MenuText", "ToolTip", "Checkable"],
          k ∈ resourceKeys r.2) := by
  intro hall
  have h := hall ("Draft_Snap_Midpoint", Draft_Snap_Midpoint_GetResources true)
    (by decide) "Accel" (by decide)
  revert h
  decide

/-- C8 amended: every registered snap command's `GetResources` returns
`Pixmap`, `MenuText` and `ToolTip`; every one except `Draft_ShowSnapBar`
also returns `Checkable`; only `Draft_Snap_Lock` returns an `Accel`
key. -/
theorem getResources_keys_amended :
    ∀ checked : Bool,
      (registeredSnapCommandResources checked).all (fun r =>
        (decide ("Pixmap" ∈ resourceKeys r.2) &&
         decide ("MenuText" ∈ resourceKeys r.2) &&
         decide ("ToolTip" ∈ resourceKeys r.2)) &&
        (decide (r.1 ≠ "Draft_ShowSnapBar") == decide ("Checkable" ∈ resourceKeys r.2)) &&
        (decide (r.1 = "Draft_Snap_Lock") == decide ("Accel" ∈ resourceKeys r.2))) = true := by
  decide

theorem dispatch_other (lr go : Vec → Vec) (self : SnapHandler) (ev : Event)
    (tr : Tracker) (h : self.tracker = some tr)
    (hq : ¬ ev.key = Qt.Key_Q) (he : ¬ ev.key = Qt.Key_Escape)
    (hd : ¬ (Qt.Key_0 ≤ ev.key ∧ ev.key ≤ Qt.Key_9))
    (hb : ¬ ev.key = Qt.Key_Backspace) (hdel : ¬ ev.key = Qt.Key_Delete)
    (hpd : ¬ ev.key = Qt.Key_Period) (hcm : ¬ ev.key = Qt.Key_Comma)
    (hr : ¬ ev.key = Qt.Key_Return) (hen : ¬ ev.key = Qt.Key_Enter) :
    keyPressEvent lr go self ev =
      { self := self, accepted := false, callsDefault := true, calls := [],
        errors := [], messages := [] } := by
  unfold keyPressEvent
  rw [h]
  simp [hq, he, hd, hb, hdel, hpd, hcm, hr, hen]

/-- The tracker each branch of `keyPressEvent` leaves behind either
keeps the buffer and the direction lock, or has a started (non-`None`)
buffer. -/
theorem keyPressEvent_tracker_fields (lr go : Vec → Vec) (self : SnapHandler)
    (ev : Event) (tr tr2 : Tracker) (h : self.tracker = some tr)
    (h2 : (keyPressEvent lr go self ev).self.tracker = some tr2) :
    (tr2.inputDistance = tr.inputDistance ∧
     tr2.locked_dir_vector = tr.locked_dir_vector) ∨
    tr2.inputDistance ≠ none := by
  by_cases hq : ev.key = Qt.Key_Q
  · rw [dispatch_q lr go self ev tr h hq] at h2
    unfold handleQ at h2
    rcases hcs : self.currentSnapPoint with _ | p <;> rw [hcs] at h2 <;>
      simp at h2
    · rw [h] at h2
      injection h2 with h2
      subst h2
      left; exact ⟨rfl, rfl⟩
    · rcases h2 with rfl
      left; exact ⟨rfl, rfl⟩
  · by_cases he : ev.key = Qt.Key_Escape
    · rw [dispatch_escape lr go self ev tr h he] at h2
      simp [handleEscape] at h2
      rcases h2 with rfl
      left; exact ⟨rfl, rfl⟩
    · by_cases hd : Qt.Key_0 ≤ ev.key ∧ ev.key ≤ Qt.Key_9
      · rw [dispatch_digit lr go self ev tr h hd.1 hd.2] at h2
        unfold handleDigit at h2
        by_cases dh : truthyVec tr.holdPoint
        · rw [dh] at h2
          by_cases dt : str_isdigit ev.text
          · rw [dt] at h2
            simp only [Bool.not_true, Bool.false_eq_true, if_false] at h2
            by_cases din : tr.inputDistance = none
            · have din' : (tr.inputDistance == none) = true := by simp [din]
              rw [din'] at h2
              simp only [if_true] at h2
              rcases hm1 : (processNumericInput tr ev.text).holdPoint with _ | hp <;>
                rcases hm2 : self.currentSnapPoint with _ | csp <;>
                rw [hm1, hm2] at h2 <;> simp at h2 <;> rcases h2 with rfl <;>
                right <;> simp [processNumericInput]
            · have din' : (tr.inputDistance == none) = false := by simp [din]
              rw [din'] at h2
              simp at h2
              rcases h2 with rfl
              right; simp [processNumericInput]
          · have dt' : str_isdigit ev.text = false := by simpa using dt
            rw [dt'] at h2
            simp at h2
            rw [h] at h2
            injection h2 with h2
            subst h2
            left; exact ⟨rfl, rfl⟩
        · have dh' : truthyVec tr.holdPoint = false := by simpa using dh
          rw [dh'] at h2
          simp at h2
          rw [h] at h2
          injection h2 with h2
          subst h2
          left; exact ⟨rfl, rfl⟩
      · by_cases hb : ev.key = Qt.Key_Backspace ∨ ev.key = Qt.Key_Delete
        · rw [dispatch_backspace lr go self ev tr h hb] at h2
          unfold handleBackspace at h2
          by_cases bt : truthyStr tr.inputDistance
          · rw [bt] at h2
            simp [updateTracking] at h2
            rcases h2 with rfl
            right; simp
          · have bt' : truthyStr tr.inputDistance = false := by simpa using bt
            rw [bt'] at h2
            simp at h2
            rw [h] at h2
            injection h2 with h2
            subst h2
            left; exact ⟨rfl, rfl⟩
        · by_cases hdc : ev.key = Qt.Key_Period ∨ ev.key = Qt.Key_Comma
          · rw [dispatch_decimal lr go self ev tr h hdc] at h2
            simp [handleDecimalSeparator] at h2
            rcases h2 with rfl
            right; simp [processNumericInput]
          · by_cases hre : ev.key = Qt.Key_Return ∨ ev.key = Qt.Key_Enter
            · rw [dispatch_return lr go self ev tr h hre] at h2
              unfold handleReturnKey at h2
              by_cases rc : (!(truthyStr tr.inputDistance) ||
                  pyStrip (tr.inputDistance.getD "") == "") = true
              · rw [if_pos rc] at h2
                simp at h2
                rw [h] at h2
                injection h2 with h2
                subst h2
                left; exact ⟨rfl, rfl⟩
              · rw [if_neg rc] at h2
                simp [commitInput] at h2
                rcases h2 with rfl
                left; exact ⟨rfl, rfl⟩
            · push_neg at hb hdc hre
              rw [dispatch_other lr go self ev tr h hq he hd hb.1 hb.2 hdc.1
                hdc.2 hre.1 hre.2] at h2
              simp at h2
              rw [h] at h2
              injection h2 with h2
              subst h2
              left; exact ⟨rfl, rfl⟩

/-- The tracker state before any numeric entry: no hold point, no
buffer, no direction lock. -/
def initTracker : Tracker :=
  { holdPoint := none, inputDistance := none, locked_dir_vector := none }

/-- One keyboard event applied to a tracker: run `keyPressEvent` with
the given current snap point and keep the resulting tracker. -/
def stepTracker (lr go : Vec → Vec) (tr : Tracker) (inp : Event × Option Vec) : Tracker :=
  match (keyPressEvent lr go { tracker := some tr, currentSnapPoint := inp.2 } inp.1).self.tracker with
  | some tr2 => tr2
  | none => tr

/-- The tracker after a sequence of keyboard events, each paired with
the snap point current at that moment. -/
def runKeys (lr go : Vec → Vec) (tr : Tracker) : List (Event × Option Vec) → Tracker
  | [] => tr
  | inp :: rest => runKeys lr go (stepTracker lr go tr inp) rest

/-- The abstract states of the numeric-entry machine named by the spec. -/
inductive NumState
  | idle
  | digitEntry
  | decimalEntry
  | directionLocked
  | committed
deriving DecidableEq, Repr

/-- Classification of a tracker configuration into the abstract states:
a set direction lock is direction-locked, a buffer holding a decimal
separator is decimal-entry, any other non-empty buffer is digit-entry,
and the rest is idle. -/
def classify (tr : Tracker) : NumState :=
  if tr.locked_dir_vector != none then NumState.directionLocked
  else if (tr.inputDistance.getD "").contains '.' then NumState.decimalEntry
  else if truthyStr tr.inputDistance then NumState.digitEntry
  else NumState.idle

/-- The reachability invariant: a direction lock is only ever present
together with a started (non-`None`) input buffer. -/
def lockedImpliesStarted (tr : Tracker) : Bool :=
  tr.locked_dir_vector == none || tr.inputDistance != none

theorem stepTracker_preserves_invariant (lr go : Vec → Vec) (tr : Tracker)
    (inp : Event × Option Vec) (h : lockedImpliesStarted tr = true) :
    lockedImpliesStarted (stepTracker lr go tr inp) = true := by
  unfold stepTracker
  rcases h2 : (keyPressEvent lr go { tracker := some tr, currentSnapPoint := inp.2 } inp.1).self.tracker with _ | tr2
  · exact h
  · have hf := keyPressEvent_tracker_fields lr go
      { tracker := some tr, currentSnapPoint := inp.2 } inp.1 tr tr2 rfl h2
    rcases hf with ⟨hi, hl⟩ | hne
    · simpa [lockedImpliesStarted, hi, hl] using h
    · simp [lockedImpliesStarted, hne]

/-- C7: every numeric-entry configuration reachable through
`keyPressEvent` from the initial tracker maintains the invariant that a
direction lock comes with a started buffer, and classifies into one of
the five abstract states idle, digit-entry, decimal-entry,
direction-locked, committed. -/
theorem numeric_entry_five_states (lr go : Vec → Vec)
    (inputs : List (Event × Option Vec)) :
    lockedImpliesStarted (runKeys lr go initTracker inputs) = true ∧
    classify (runKeys lr go initTracker inputs) ∈
      [NumState.idle, NumState.digitEntry, NumState.decimalEntry,
       NumState.directionLocked, NumState.committed] := by
  constructor
  · have main : ∀ l : List (Event × Option Vec), ∀ tr : Tracker,
        lockedImpliesStarted tr = true →
        lockedImpliesStarted (runKeys lr go tr l) = true := by
      intro l
      induction l with
      | nil => intro tr h; simpa [runKeys] using h
      | cons inp rest ih =>
        intro tr h
        rw [runKeys]
        exact ih _ (stepTracker_preserves_invariant lr go tr inp h)
    exact main inputs initTracker (by decide)
  · have total : ∀ s : NumState,
        s ∈ [NumState.idle, NumState.digitEntry, NumState.decimalEntry,
             NumState.directionLocked, NumState.committed] := by
      intro s; cases s <;> simp
    exact total _
